import Mathlib

/-!
Verification of the ImperialStaffSearch core: a shallow embedding of
src/Profile.py and src/SearchEngine.py, with theorems checking the
natural-language specification against the code.

Modelling conventions:
- Python strings are Lean String values; the Python string operations
  used by the code (lower, substring membership, replace, strip, split)
  are modelled on explicit character lists so they stay executable.
- The Profile class stores its extracted data in a dict; we model that
  dict as a structure.  Crucially, Profile defines no str or repr
  method, so Python str(profile) is the default object representation
  "<src.Profile.Profile object at 0xADDR>" whose hex address is decided
  by the runtime; we carry that address as an explicit string alongside
  each profile.
- The OpenAI chat endpoint is an external collaborator, modelled as a
  function from (query, attempt index) to a result.
- The sklearn TfidfVectorizer / cosine_similarity pipeline is modelled
  with exact real arithmetic (the floats of the source approximate these
  reals); its purely combinatorial layers (tokenizing, stop-word
  removal, vocabulary building, term counting) are executable.
-/

namespace StaffSearch

/-! ### Python string primitives -/

/-- ASCII lower-casing of one character; Python str.lower restricted to
the ASCII range, which covers every string this code base handles. -/
def lowerChar (c : Char) : Char :=
  if 'A' ≤ c ∧ c ≤ 'Z' then Char.ofNat (c.toNat + 32) else c

/-- Python str.lower on a string. -/
def lowerStr (s : String) : String := ⟨s.toList.map lowerChar⟩

/-- Python substring containment (needle in hay) on character lists. -/
def isSubChars (needle : List Char) : List Char → Bool
  | [] => needle.isEmpty
  | c :: rest => needle.isPrefixOf (c :: rest) || isSubChars needle rest

/-- Python membership test (needle in hay) for strings. -/
def pyIn (needle hay : String) : Bool := isSubChars needle.toList hay.toList

/-- One pass of Python str.replace on character lists, replacing every
left-to-right non-overlapping occurrence of pat by rep.  The fuel
argument makes the recursion structural; pyReplace always supplies fuel
equal to the length of the input, which is enough because every step
consumes at least one character of the input when pat is nonempty, and
an empty pat never matches here (the source only replaces the nonempty
pattern "mailto:"). -/
def replaceFuel (pat rep : List Char) : Nat → List Char → List Char
  | _, [] => []
  | 0, l => l
  | fuel + 1, c :: rest =>
    if pat ≠ [] ∧ pat.isPrefixOf (c :: rest) then
      rep ++ replaceFuel pat rep fuel ((c :: rest).drop pat.length)
    else
      c :: replaceFuel pat rep fuel rest

/-- Python str.replace (all occurrences, left to right). -/
def pyReplace (s pat rep : String) : String :=
  ⟨replaceFuel pat.toList rep.toList s.toList.length s.toList⟩

/-- Python str.strip: drop leading and trailing whitespace. -/
def pyStrip (s : String) : String :=
  ⟨((s.toList.dropWhile Char.isWhitespace).reverse.dropWhile
      Char.isWhitespace).reverse⟩

/-- Python str.split(sep) for a one-character separator, as used by
content.split(.) in the source: splits on every occurrence, keeping
empty pieces. -/
def splitChar (sep : Char) (s : String) : List String :=
  (splitAux s.toList [] []).map fun cs => ⟨cs⟩
where
  /-- Accumulator-based splitter: cur holds the current piece reversed,
  acc the finished pieces reversed. -/
  splitAux : List Char → List Char → List (List Char) → List (List Char)
    | [], cur, acc => (cur.reverse :: acc).reverse
    | c :: rest, cur, acc =>
      if c = sep then splitAux rest [] (cur.reverse :: acc)
      else splitAux rest (c :: cur) acc

/-! ### The Profile record (src/Profile.py)

Profile.__get_main extracts a dict with the keys url is implicit (an
attribute), name, department, contact, location, links, summary,
publications; failed extractions degrade to the sentinel values below.
We model the fully built record.
-/

structure Profile where
  url : String
  name : String
  department : String
  contact : String
  location : String
  links : List String
  summary : String
  publications : List String
deriving DecidableEq

/-- Python str(profile).  The Profile class defines neither a str nor a
repr method, so CPython falls back to the default object representation
"<src.Profile.Profile object at 0xADDR>".  The hex address ADDR depends
on the runtime heap and is passed in explicitly. -/
def profileStr (addr : String) : String :=
  "<src.Profile.Profile object at " ++ addr ++ ">"

/-- Flattened record text as the specification words it (section 4.3):
the concatenation of all of the record's fields (url, name, department,
contact, location, links, summary, publications).  This definition
follows the spec's words, for comparison against what the code actually
does; the code's counterpart is profileStr. -/
def specFlattenedText (p : Profile) : String :=
  p.url ++ p.name ++ p.department ++ p.contact ++ p.location ++
    String.join p.links ++ p.summary ++ String.join p.publications

/-! ### Lexical scoring (SearchEngine.__rank_by_keywords, lines 90-104) -/

/-- Keyword hit count of one profile text, exactly as the source
computes it: sum(keyword.lower() in profile_text.lower() for keyword in
keywords). -/
def keywordCount (text : String) (keywords : List String) : Nat :=
  (keywords.filter (fun k => pyIn (lowerStr k) (lowerStr text))).length

/-! ### Contact extraction (src/Profile.py, Profile.__get_main, lines 51-58)

The extractor queries the parsed document (a BeautifulSoup tree) only
through two accessors for the contact field: the first anchor whose
href starts with "mailto:" (CSS selector a[href^="mailto:"]), else the
text of a class="contact-email" element.  We model the document by the
projections those accessors read.
-/

structure SoupDoc where
  /-- href values of all anchor elements, in document order. -/
  anchorHrefs : List String
  /-- Text of the first class="contact-email" element, if any. -/
  contactEmailText : Option String
deriving DecidableEq

/-- The soup.select_one('a[href^="mailto:"]') lookup: first anchor whose
href starts with the mail scheme. -/
def firstMailtoHref (d : SoupDoc) : Option String :=
  d.anchorHrefs.find? (fun h => "mailto:".toList.isPrefixOf h.toList)

/-- Contact extraction as the source performs it:
soup.select_one('a[href^="mailto:"]').get('href')
   .replace('mailto:', '').strip(), falling back to the
class="contact-email" text (stripped), else the sentinel "N/A". -/
def extractContact (d : SoupDoc) : String :=
  match firstMailtoHref d with
  | some href => pyStrip (pyReplace href "mailto:" "")
  | none =>
    match d.contactEmailText with
    | some t => pyStrip t
    | none => "N/A"

/-- The mail-link target with the mail-scheme prefix removed, which is
what the specification says the contact field equals ("its target with
the mail-scheme prefix stripped"): drop the 7 characters of "mailto:".
This definition follows the spec's words, for comparison with
extractContact. -/
def dropMailScheme (s : String) : String := ⟨s.toList.drop 7⟩

/-! ### Keyword expansion (SearchEngine.__query_to_keywords, lines 22-72)

The OpenAI chat endpoint is an external collaborator.  One call either
raises a transport/API error (the except branch) or returns a response;
the source treats the response as usable only when response.choices is
nonempty and choices[0].message.content is truthy (present and not the
empty string).  We model one attempt as:
- LMResult.err: the request raised;
- LMResult.ok none: a response whose content is absent (no choices, or
  content None);
- LMResult.ok (some c): a response with content string c (c = "" is the
  other falsy, hence retried, case).
The endpoint behaviour is a function of the query and the attempt
index, i.e. the value of the recursive parameter at that call.

The source's retry call (line 69) reads
return await self.__query_to_keywords(query, recursive=recursive + 1)
and omits recursive_max, which therefore resets to its default 3 on
every retry: the caller's bound governs only the first depth check.
-/

inductive LMResult where
  | err : LMResult
  | ok : Option String → LMResult
deriving DecidableEq

/-- Parsing of the completion content, as the source does it:
[keyword.strip() for keyword in content.split(',') if keyword.strip()].
-/
def parseKeywords (content : String) : List String :=
  ((splitChar ',' content).map pyStrip).filter (fun s => s ≠ "")

/-- SearchEngine.__query_to_keywords together with the number of
endpoint calls it issues.  Mirrors the source exactly: if recursive >
recursive_max return [] (no call); otherwise issue one call; a raised
transport error returns [] at once; a usable content is parsed and
returned; an absent or falsy content recurses with recursive + 1.  The
recursive call at line 69 passes only query and recursive, so
recursive_max silently resets to its default 3 on every retry — the
literal 3 below reproduces that, faithfully to the source. -/
def queryToKeywordsCount (lm : String → Nat → LMResult) (query : String)
    (recursive recursiveMax : Nat) : List String × Nat :=
  if _h : recursive > recursiveMax then ([], 0)
  else
    match lm query recursive with
    | .err => ([], 1)
    | .ok none =>
      let r := queryToKeywordsCount lm query (recursive + 1) 3
      (r.1, r.2 + 1)
    | .ok (some content) =>
      if content = "" then
        let r := queryToKeywordsCount lm query (recursive + 1) 3
        (r.1, r.2 + 1)
      else
        (parseKeywords content, 1)
termination_by (if recursiveMax = 3 then 0 else 1) + (4 - recursive)
decreasing_by
  all_goals by_cases h3 : recursiveMax = 3 <;> simp [h3] <;> omega

/-- The keyword list alone, as the rest of the engine consumes it. -/
def queryToKeywords (lm : String → Nat → LMResult) (query : String)
    (recursive recursiveMax : Nat) : List String :=
  (queryToKeywordsCount lm query recursive recursiveMax).1

/-! ### Lexical ranking (SearchEngine.__rank_by_keywords, lines 74-104)

The loop body cannot raise in practice: str(profile) and .lower() are
total, so the per-profile try/except never skips a record; the model
keeps every record.  ranked_profiles.sort(key=lambda x: x[1],
reverse=True) is CPython's stable sort by descending count, modelled by
insertion sort with the total preorder descByCount (insertion sort with
a total preorder is exactly the stable sort for it).  A profile is
carried together with its runtime address, since str(profile) is the
address-bearing default representation.
-/

/-- Descending order on the keyword-count component. -/
def descByCount (a b : Profile × Nat) : Prop := b.2 ≤ a.2

instance : DecidableRel descByCount := fun a b =>
  inferInstanceAs (Decidable (b.2 ≤ a.2))

instance : IsTotal (Profile × Nat) descByCount :=
  ⟨fun a b => show b.2 ≤ a.2 ∨ a.2 ≤ b.2 from Nat.le_total b.2 a.2⟩

instance : IsTrans (Profile × Nat) descByCount :=
  ⟨fun _ _ _ h1 h2 => Nat.le_trans h2 h1⟩

/-- The (profile, keyword_count) pairs the loop accumulates. -/
def scoredProfiles (pairs : List (Profile × String)) (keywords : List String) :
    List (Profile × Nat) :=
  pairs.map (fun pa => (pa.1, keywordCount (profileStr pa.2) keywords))

/-- SearchEngine.__rank_by_keywords: score, sort stably by descending
count, return just the profiles. -/
def rankByKeywords (pairs : List (Profile × String)) (keywords : List String) :
    List Profile :=
  ((scoredProfiles pairs keywords).insertionSort descByCount).map Prod.fst

/-- SearchEngine.__simple_rank: expand the query (recursive=0,
recursive_max=3 by default), fetch the profiles, rank by keywords, and
keep the first top_n. -/
def simpleRank (lm : String → Nat → LMResult) (pairs : List (Profile × String))
    (query : String) (topN : Nat) : List Profile :=
  let keywords := queryToKeywords lm query 0 3
  (rankByKeywords pairs keywords).take topN

/-! ### The TfidfVectorizer analyzer (sklearn, fit by SearchEngine)

TfidfVectorizer(stop_words='english') with all other parameters at
their defaults: lowercase the text, tokenize with the default
token_pattern (maximal runs of word characters, keeping runs of length
at least 2), drop the fixed English stop-word list, build the sorted
vocabulary of the remaining terms.
-/

/-- A word character for the default token pattern (alphanumeric or
underscore; the corpus here is ASCII). -/
def wordChar (c : Char) : Bool := c.isAlphanum || c = '_'

/-- Maximal word-character runs of a character list; cur carries the
current run reversed. -/
def tokenRuns : List Char → List Char → List (List Char)
  | [], cur => if cur.isEmpty then [] else [cur.reverse]
  | c :: rest, cur =>
    if wordChar c then tokenRuns rest (c :: cur)
    else if cur.isEmpty then tokenRuns rest []
    else cur.reverse :: tokenRuns rest []

/-- The default sklearn tokenizer on lowercased text: maximal word runs
of length at least 2. -/
def tokenize (s : String) : List String :=
  ((tokenRuns (lowerStr s).toList []).filter (fun r => 2 ≤ r.length)).map
    (fun cs => ⟨cs⟩)

/-- The fixed sklearn English stop-word list
(sklearn.feature_extraction.text.ENGLISH_STOP_WORDS). -/
def stopWords : List String :=
  ["a", "about", "above", "across", "after", "afterwards", "again",
   "against", "all", "almost", "alone", "along", "already", "also",
   "although", "always", "am", "among", "amongst", "amoungst", "amount",
   "an", "and", "another", "any", "anyhow", "anyone", "anything",
   "anyway", "anywhere", "are", "around", "as", "at", "back", "be",
   "became", "because", "become", "becomes", "becoming", "been",
   "before", "beforehand", "behind", "being", "below", "beside",
   "besides", "between", "beyond", "bill", "both", "bottom", "but",
   "by", "call", "can", "cannot", "cant", "co", "con", "could",
   "couldnt", "cry", "de", "describe", "detail", "do", "done", "down",
   "due", "during", "each", "eg", "eight", "either", "eleven", "else",
   "elsewhere", "empty", "enough", "etc", "even", "ever", "every",
   "everyone", "everything", "everywhere", "except", "few", "fifteen",
   "fifty", "fill", "find", "fire", "first", "five", "for", "former",
   "formerly", "forty", "found", "four", "from", "front", "full",
   "further", "get", "give", "go", "had", "has", "hasnt", "have", "he",
   "hence", "her", "here", "hereafter", "hereby", "herein", "hereupon",
   "hers", "herself", "him", "himself", "his", "how", "however",
   "hundred", "i", "ie", "if", "in", "inc", "indeed", "interest",
   "into", "is", "it", "its", "itself", "keep", "last", "latter",
   "latterly", "least", "less", "ltd", "made", "many", "may", "me",
   "meanwhile", "might", "mill", "mine", "more", "moreover", "most",
   "mostly", "move", "much", "must", "my", "myself", "name", "namely",
   "neither", "never", "nevertheless", "next", "nine", "no", "nobody",
   "none", "noone", "nor", "not", "nothing", "now", "nowhere", "of",
   "off", "often", "on", "once", "one", "only", "onto", "or", "other",
   "others", "otherwise", "our", "ours", "ourselves", "out", "over",
   "own", "part", "per", "perhaps", "please", "put", "rather", "re",
   "same", "see", "seem", "seemed", "seeming", "seems", "serious",
   "several", "she", "should", "show", "side", "since", "sincere",
   "six", "sixty", "so", "some", "somehow", "someone", "something",
   "sometime", "sometimes", "somewhere", "still", "such", "system",
   "take", "ten", "than", "that", "the", "their", "them", "themselves",
   "then", "thence", "there", "thereafter", "thereby", "therefore",
   "therein", "thereupon", "these", "they", "thick", "thin", "third",
   "this", "those", "though", "three", "through", "throughout", "thru",
   "thus", "to", "together", "too", "top", "toward", "towards",
   "twelve", "twenty", "two", "un", "under", "until", "up", "upon",
   "us", "very", "via", "was", "we", "well", "were", "what", "whatever",
   "when", "whence", "whenever", "where", "whereafter", "whereas",
   "whereby", "wherein", "whereupon", "wherever", "whether", "which",
   "while", "whither", "who", "whoever", "whole", "whom", "whose",
   "why", "will", "with", "within", "without", "would", "yet", "you",
   "your", "yours", "yourself", "yourselves"]

/-- The analyzer: tokens of a document after stop-word removal.  These
are the term occurrences the vectorizer counts. -/
def analyze (s : String) : List String :=
  (tokenize s).filter (fun t => ¬ stopWords.contains t)

/-- Lexicographic order on character lists by code point, Python's
string order, used for the sorted vocabulary. -/
def charListLe : List Char → List Char → Bool
  | [], _ => true
  | _ :: _, [] => false
  | a :: as, b :: bs =>
    if a = b then charListLe as bs else a.toNat ≤ b.toNat

/-- Insertion into a sorted list of strings, skipping duplicates. -/
def insertVocab (t : String) : List String → List String
  | [] => [t]
  | u :: us =>
    if t = u then u :: us
    else if charListLe t.toList u.toList then t :: u :: us
    else u :: insertVocab t us

/-- The fitted vocabulary: the sorted set of all analyzed terms of the
corpus (sklearn sorts its vocabulary alphabetically). -/
def buildVocab (docs : List String) : List String :=
  (docs.flatMap analyze).foldr insertVocab []

/-- Occurrences of term t in a token list (the term-frequency count). -/
def countTok (toks : List String) (t : String) : Nat :=
  (toks.filter (fun u => u = t)).length

/-- Number of corpus documents containing term t (document frequency).
-/
def docFreq (docs : List String) (t : String) : Nat :=
  (docs.filter (fun d => (analyze d).contains t)).length

/-! ### Statistical ranking (SearchEngine.__tf_idf_rank, lines 133-190)

TfidfVectorizer defaults active here: use_idf=True, smooth_idf=True,
sublinear_tf=False, norm='l2'.  fit_transform(documents) counts terms,
multiplies by the smoothed idf log((1+n)/(1+df))+1, and l2-normalizes
each row; it raises ValueError("empty vocabulary; ...") when no term
survives analysis.  transform([query]) applies the same counts-times-idf
map with the fitted idf and l2-normalizes.  cosine_similarity
l2-normalizes both operands again (a zero vector stays zero) and takes
dot products.  np.argsort sorts indices by ascending score (see
argsortAsc below for its tie behaviour and the 16-element cutoff of the
model's exactness on ties), [::-1] reverses, [:top_n] truncates, and
profiles are read back by index.  The float arithmetic of the source is
modelled by the exact reals it approximates.
-/

/-- The smoothed inverse document frequency of a term, for a corpus of
n documents: log((1 + n) / (1 + df)) + 1. -/
noncomputable def idf (docs : List String) (t : String) : ℝ :=
  Real.log ((1 + (docs.length : ℝ)) / (1 + (docFreq docs t : ℝ))) + 1

/-- Unnormalized tf-idf row of a text over the fitted vocabulary:
count of each vocabulary term times its idf. -/
noncomputable def docRow (docs : List String) (text : String) : List ℝ :=
  (buildVocab docs).map
    (fun t => (countTok (analyze text) t : ℝ) * idf docs t)

/-- Sum of squares of a vector. -/
noncomputable def sumSq (v : List ℝ) : ℝ := (v.map (fun x => x * x)).sum

/-- l2 normalization as sklearn's normalize performs it: a row with
zero norm is returned unchanged, any other row is divided by its norm.
-/
noncomputable def l2normalize (v : List ℝ) : List ℝ :=
  if sumSq v = 0 then v else v.map (fun x => x / Real.sqrt (sumSq v))

/-- Dot product of two vectors. -/
noncomputable def dot (a b : List ℝ) : ℝ := (List.zipWith (· * ·) a b).sum

/-- Cosine similarity of two rows, as sklearn computes it: normalize
both (zero-safely) and take the dot product. -/
noncomputable def cosineSim (a b : List ℝ) : ℝ :=
  dot (l2normalize a) (l2normalize b)

/-- The rows of fit_transform(documents). -/
noncomputable def tfidfMatrix (docs : List String) : List (List ℝ) :=
  docs.map (fun d => l2normalize (docRow docs d))

/-- The row of transform([query]), in the fitted space. -/
noncomputable def queryVec (docs : List String) (query : String) : List ℝ :=
  l2normalize (docRow docs query)

/-- cosine_similarity(query_vector, tfidf_matrix).flatten(): one score
per document. -/
noncomputable def cosineSimilarities (docs : List String) (query : String) :
    List ℝ :=
  (tfidfMatrix docs).map (fun row => cosineSim (queryVec docs query) row)

/-- Ascending order on the score component of an (index, score) pair.
-/
def ascBySnd (a b : Nat × ℝ) : Prop := a.2 ≤ b.2

noncomputable instance : DecidableRel ascBySnd := fun a b =>
  inferInstanceAs (Decidable (a.2 ≤ b.2))

instance : IsTotal (Nat × ℝ) ascBySnd := ⟨fun a b => le_total a.2 b.2⟩

instance : IsTrans (Nat × ℝ) ascBySnd := ⟨fun _ _ _ => le_trans⟩

/-- np.argsort with its default kind: indices of the list sorted by
ascending value.  numpy's default sort (introsort) runs plain insertion
sort on arrays of at most 16 elements — below its partitioning cutoff —
so for those arrays equal values are kept in index order, exactly this
insertion-sort model.  On longer arrays the algorithm is still
deterministic and still sorts by value, but its order among equal
values is implementation-defined (partition swaps permute ties), so
only theorems that do not depend on tie order, or that assume at most
16 elements, are read off this model. -/
noncomputable def argsortAsc (l : List ℝ) : List Nat :=
  (l.enum.insertionSort ascBySnd).map Prod.fst

/-- The full descending index order np.argsort(...)[::-1] that
__tf_idf_rank truncates to top_n. -/
noncomputable def rankedIndices (docs : List String) (query : String) :
    List Nat :=
  (argsortAsc (cosineSimilarities docs query)).reverse

/-- The ValueError message TfidfVectorizer.fit raises when analysis
leaves no term. -/
def emptyVocabError : String :=
  "empty vocabulary; perhaps the documents only contain stop words"

/-- SearchEngine.__tf_idf_rank: fetch profiles, render each with str()
(the default object representation), fit the vectorizer (raising on an
empty vocabulary), score by cosine similarity, and return the top_n
profiles by descending score. -/
noncomputable def tfIdfRank (pairs : List (Profile × String)) (query : String)
    (topN : Nat) : Except String (List Profile) :=
  let profiles := pairs.map Prod.fst
  let documents := pairs.map (fun pa => profileStr pa.2)
  if (buildVocab documents).isEmpty then .error emptyVocabError
  else
    .ok (((rankedIndices documents query).take topN).filterMap
      (fun i => profiles[i]?))

/-- SearchEngine.search: run __simple_rank, overwrite its result with
__tf_idf_rank, and return.  Both stages read the same stored
collection, modelled by the single pairs snapshot. -/
noncomputable def search (lm : String → Nat → LMResult)
    (pairs : List (Profile × String)) (query : String) (topN : Nat) :
    Except String (List Profile) :=
  let rankedProfiles := simpleRank lm pairs query topN
  let rankedProfiles := tfIdfRank pairs query topN
  rankedProfiles

/-! ### Concrete fixtures used by counterexamples and witnesses -/

/-- A record whose summary contains the phrase "machine learning". -/
def adaProfile : Profile :=
  { url := "https://profiles.imperial.ac.uk/ada"
    name := "Ada Lovelace"
    department := "Computing"
    contact := "ada@imperial.ac.uk"
    location := "Huxley 305"
    links := []
    summary := "machine learning researcher"
    publications := [] }

/-- A second, distinct record. -/
def bobProfile : Profile :=
  { url := "https://profiles.imperial.ac.uk/bob"
    name := "Bob Byron"
    department := "Mathematics"
    contact := "bob@imperial.ac.uk"
    location := "Huxley 640"
    links := []
    summary := "number theory researcher"
    publications := [] }

/-- A two-record collection, with the runtime addresses of the two
Profile instances. -/
def tiePairs : List (Profile × String) :=
  [(adaProfile, "0x7f81"), (bobProfile, "0x7f82")]

/-- The documents __tf_idf_rank builds from that collection. -/
def tieDocs : List String := tiePairs.map (fun pa => profileStr pa.2)

/-- A document whose first mail-link target contains the scheme string
twice. -/
def mailtoDoubleDoc : SoupDoc :=
  { anchorHrefs := ["mailto:mailto:bob@imperial.ac.uk"]
    contactEmailText := none }

/-- A document whose first mail-link target carries surrounding
whitespace after the scheme. -/
def mailtoSpacedDoc : SoupDoc :=
  { anchorHrefs := ["mailto: carol@imperial.ac.uk "]
    contactEmailText := none }

/-! ### Helper lemmas -/

/-- A dot product with an all-zero left operand is zero, whatever the
right operand is. -/
lemma dot_left_zero : ∀ v m : List ℝ, (∀ x ∈ v, x = 0) → dot v m = 0
  | [], _, _ => rfl
  | _ :: _, [], _ => rfl
  | x :: v, y :: m, h => by
    have hx : x = 0 := h x (List.mem_cons_self x v)
    have hrest := dot_left_zero v m (fun z hz => h z (List.mem_cons_of_mem x hz))
    simp only [dot, List.zipWith_cons_cons, List.sum_cons] at *
    rw [hx, hrest, zero_mul, add_zero]

/-- The sum of squares of an all-zero vector is zero. -/
lemma sumSq_eq_zero : ∀ v : List ℝ, (∀ x ∈ v, x = 0) → sumSq v = 0
  | [], _ => rfl
  | x :: v, h => by
    have hx : x = 0 := h x (List.mem_cons_self x v)
    have hrest := sumSq_eq_zero v (fun z hz => h z (List.mem_cons_of_mem x hz))
    simp only [sumSq, List.map_cons, List.sum_cons] at *
    rw [hx, hrest, zero_mul, add_zero]

/-- l2 normalization leaves an all-zero vector unchanged. -/
lemma l2normalize_of_zero (v : List ℝ) (h : ∀ x ∈ v, x = 0) :
    l2normalize v = v := by
  rw [l2normalize, if_pos (sumSq_eq_zero v h)]

/-- When no query term occurs in the fitted vocabulary, the query's
tf-idf row is all zeros. -/
lemma docRow_zero (docs : List String) (q : String)
    (h : ∀ t ∈ buildVocab docs, countTok (analyze q) t = 0) :
    ∀ x ∈ docRow docs q, x = 0 := by
  intro x hx
  rw [docRow, List.mem_map] at hx
  obtain ⟨t, ht, rfl⟩ := hx
  rw [h t ht]
  simp

/-- When no query term occurs in the fitted vocabulary, every cosine
similarity is exactly zero: the search yields one flat tie. -/
lemma cosineSimilarities_of_disjoint (docs : List String) (q : String)
    (h : ∀ t ∈ buildVocab docs, countTok (analyze q) t = 0) :
    cosineSimilarities docs q = List.replicate docs.length 0 := by
  have hq : ∀ x ∈ queryVec docs q, x = 0 := by
    rw [queryVec, l2normalize_of_zero _ (docRow_zero docs q h)]
    exact docRow_zero docs q h
  have hsim : ∀ row ∈ tfidfMatrix docs, cosineSim (queryVec docs q) row = 0 := by
    intro row _
    rw [cosineSim, l2normalize_of_zero _ hq]
    exact dot_left_zero _ _ hq
  rw [cosineSimilarities, List.map_congr_left hsim]
  rw [List.map_const', tfidfMatrix, List.length_map]

/-- No token of the query "machine learning" occurs in the vocabulary
fitted on the two default object representations. -/
lemma tie_disjoint :
    ∀ t ∈ buildVocab tieDocs, countTok (analyze "machine learning") t = 0 := by
  decide

/-- The similarity scores of the tie fixture: a flat [0, 0]. -/
lemma tieSims : cosineSimilarities tieDocs "machine learning" = [0, 0] := by
  have h := cosineSimilarities_of_disjoint tieDocs "machine learning" tie_disjoint
  simpa using h

/-! ### Claims -/

/-- C1.  The claim reads: for every query string and every top_n, if
the storage collaborator returns an empty record collection, then
search(query, top_n) returns an empty sequence and raises no error.
The code does the opposite: with no profiles, __tf_idf_rank hands
fit_transform an empty document list, TfidfVectorizer raises
ValueError("empty vocabulary; ..."), and search propagates it.  This
theorem evaluates the model at the failing input: search errors instead
of returning the empty sequence. -/
theorem search_empty_collection_raises :
    ∀ (lm : String → Nat → LMResult) (query : String) (topN : Nat),
      search lm [] query topN = .error emptyVocabError := by
  intro lm query topN
  rfl

/-- C2.  The claim reads: the lexical score of a record equals the
number of keywords occurring (case-insensitively) in the record's full
flattened text, the concatenation of all its fields.  The code instead
scores str(profile), and Profile defines no str or repr method, so the
scored text is the default object representation
"<src.Profile.Profile object at 0x...>", which contains no field text.
At the failing input (a record whose summary contains "machine
learning", keyword list ["machine learning"]) the code computes hit
count 0 where the claimed flattened-text count is 1. -/
theorem lexical_score_uses_repr_not_fields :
    scoredProfiles [(adaProfile, "0x7f9c2a4b5d60")] ["machine learning"] =
        [(adaProfile, 0)] ∧
      keywordCount (specFlattenedText adaProfile) ["machine learning"] = 1 := by
  constructor
  · decide
  · decide

/-- C5.  search(query, top_n) returns exactly __tf_idf_rank(query,
top_n): the lexical stage's result is computed and then overwritten, so
it has no effect on the returned value, and neither does the
language-model collaborator that feeds it. -/
theorem search_is_tfIdfRank :
    ∀ (lm lm2 : String → Nat → LMResult) (pairs : List (Profile × String))
      (query : String) (topN : Nat),
      search lm pairs query topN = tfIdfRank pairs query topN ∧
        search lm pairs query topN = search lm2 pairs query topN := by
  intro lm lm2 pairs query topN
  exact ⟨rfl, rfl⟩

/-- Keyword expansion when every attempt yields absent or falsy
content, once the bound has reset to its default 3: one call per depth
from rec up to 3, i.e. 4 - rec calls, then the empty list. -/
lemma queryToKeywordsCount_malformed_pinned (lm : String → Nat → LMResult)
    (q : String)
    (h : ∀ d, lm q d = .ok none ∨ lm q d = .ok (some "")) :
    ∀ fuel rec, 4 - rec = fuel →
      queryToKeywordsCount lm q rec 3 = ([], fuel) := by
  intro fuel
  induction fuel with
  | zero =>
    intro rec hf
    rw [queryToKeywordsCount, dif_pos (by omega)]
  | succ n ih =>
    intro rec hf
    rw [queryToKeywordsCount, dif_neg (by omega)]
    have hrec := ih (rec + 1) (by omega)
    rcases h rec with h1 | h1 <;> rw [h1] <;> simp [hrec]

/-- C6.  The claim reads: with an endpoint whose content is always
absent or malformed, expansion starting at depth 0 calls the endpoint
at most max_depth + 1 times and returns an empty sequence.  The code
instead makes exactly 4 endpoint calls for every max_depth, because the
retry at line 69 drops recursive_max and the bound resets to its
default 3; the caller's bound governs only the first depth check, which
at depth 0 always passes.  At max_depth = 0 the claim allows 1 call and
the code makes 4.  Termination and the empty result do hold.  This
theorem evaluates the faithful model: 4 calls whatever max_depth is. -/
theorem expansion_malformed_four_calls :
    ∀ (lm : String → Nat → LMResult) (q : String) (maxDepth : Nat),
      (∀ d, lm q d = .ok none ∨ lm q d = .ok (some "")) →
      queryToKeywordsCount lm q 0 maxDepth = ([], 4) := by
  intro lm q maxDepth h
  rw [queryToKeywordsCount, dif_neg (by omega)]
  have hrec := queryToKeywordsCount_malformed_pinned lm q h 3 1 (by omega)
  rcases h 0 with h1 | h1 <;> rw [h1] <;> simp [hrec]

/-- C6 witness: a stub endpoint with always-absent content and
max_depth = 0, the failing input: four calls where the claim allows
one, and an empty result. -/
theorem expansion_malformed_four_calls_witness :
    queryToKeywordsCount (fun _ _ => .ok none) "deep learning" 0 0 = ([], 4) :=
  expansion_malformed_four_calls (fun _ _ => .ok none) "deep learning" 0
    (fun _ => Or.inl rfl)

/-- C7.  If the attempt at the current depth raises a transport/API
error, keyword expansion returns the empty sequence at once: exactly
the one raising request is issued, none after it. -/
theorem expansion_transport_error_no_retry :
    ∀ (lm : String → Nat → LMResult) (q : String) (rec maxDepth : Nat),
      rec ≤ maxDepth → lm q rec = .err →
      queryToKeywordsCount lm q rec maxDepth = ([], 1) := by
  intro lm q rec maxDepth hrec herr
  rw [queryToKeywordsCount, dif_neg (by omega), herr]

/-- C7 witness: an endpoint that raises on the first attempt, starting
depth 0 with max_depth 3: one call, empty result. -/
theorem expansion_transport_error_no_retry_witness :
    queryToKeywordsCount (fun _ _ => .err) "deep learning" 0 3 = ([], 1) :=
  expansion_transport_error_no_retry (fun _ _ => .err) "deep learning" 0 3
    (by omega) rfl

/-- C8 counterexample.  The claim reads: for every document containing
a mail-link, the contact field equals that link's target with the
mail-scheme prefix removed.  The code removes every occurrence of
"mailto:" and then strips whitespace, so it disagrees with plain prefix
removal on a target containing the scheme twice, and on a target with
whitespace around the address. -/
theorem contact_not_prefix_strip :
    (firstMailtoHref mailtoDoubleDoc = some "mailto:mailto:bob@imperial.ac.uk" ∧
      extractContact mailtoDoubleDoc ≠
        dropMailScheme "mailto:mailto:bob@imperial.ac.uk") ∧
      (firstMailtoHref mailtoSpacedDoc = some "mailto: carol@imperial.ac.uk " ∧
        extractContact mailtoSpacedDoc ≠
          dropMailScheme "mailto: carol@imperial.ac.uk ") := by
  refine ⟨⟨by decide, by decide⟩, ⟨by decide, by decide⟩⟩

/-- C8 amended.  For every document containing a mail-link, the contact
field equals the first mail-link target with every occurrence of the
mail-scheme string removed and surrounding whitespace stripped (which
coincides with prefix removal whenever the scheme occurs only as the
prefix and the remainder has no surrounding whitespace). -/
theorem contact_is_replace_strip :
    ∀ (d : SoupDoc) (href : String), firstMailtoHref d = some href →
      extractContact d = pyStrip (pyReplace href "mailto:" "") := by
  intro d href h
  rw [extractContact, h]

/-- C8 witness: a well-formed single mail-link. -/
theorem contact_is_replace_strip_witness :
    extractContact
        { anchorHrefs := ["mailto:alice@imperial.ac.uk"]
          contactEmailText := none } =
      pyStrip (pyReplace "mailto:alice@imperial.ac.uk" "mailto:" "") :=
  contact_is_replace_strip
    { anchorHrefs := ["mailto:alice@imperial.ac.uk"], contactEmailText := none }
    "mailto:alice@imperial.ac.uk" (by decide)

/-- C9.  The statistical ranker is deterministic: the model of
__tf_idf_rank is a pure function of the record collection (with its
runtime addresses), the query and top_n — the source invokes no
randomness on this path (the seed field only parameterizes the OpenAI
call), so identical inputs give identical ranked output. -/
theorem tfIdfRank_deterministic :
    ∀ (pairs pairs2 : List (Profile × String)) (q q2 : String) (n n2 : Nat),
      pairs = pairs2 → q = q2 → n = n2 →
      tfIdfRank pairs q n = tfIdfRank pairs2 q2 n2 := by
  intro pairs pairs2 q q2 n n2 hp hq hn
  rw [hp, hq, hn]

/-- C9 witness: two runs on the two-record fixture. -/
theorem tfIdfRank_deterministic_witness :
    tfIdfRank tiePairs "machine learning" 5 =
      tfIdfRank tiePairs "machine learning" 5 :=
  tfIdfRank_deterministic tiePairs tiePairs "machine learning"
    "machine learning" 5 5 rfl rfl rfl

/-- C10.  The lexical ranker returns a permutation of its input
records: nothing is dropped, duplicated or invented.  (In the source
the per-record try/except could skip a record only if scoring raised,
and scoring — str() of the object followed by substring tests — cannot
raise, matching the claim's premise that no exception occurs.) -/
theorem rankByKeywords_perm :
    ∀ (pairs : List (Profile × String)) (keywords : List String),
      (rankByKeywords pairs keywords).Perm (pairs.map Prod.fst) := by
  intro pairs keywords
  rw [rankByKeywords]
  refine ((List.perm_insertionSort descByCount _).map Prod.fst).trans ?_
  rw [scoredProfiles, List.map_map]
  exact List.Perm.refl _

/-- Two positions of a list, in order, form a sublist. -/
lemma pair_get_sublist {α : Type _} :
    ∀ (xs : List α) (i j : Nat) (hij : i < j) (hj : j < xs.length),
      [xs.get ⟨i, Nat.lt_trans hij hj⟩, xs.get ⟨j, hj⟩].Sublist xs
  | [], _, _, _, hj => absurd hj (by simp)
  | _ :: _, _, 0, hij, _ => absurd hij (by omega)
  | x :: xs, 0, j + 1, _, hj => by
    refine List.Sublist.cons₂ x ?_
    rw [List.singleton_sublist]
    exact List.get_mem xs j (Nat.lt_of_succ_lt_succ hj)
  | x :: xs, i + 1, j + 1, hij, hj =>
    List.Sublist.cons x
      (pair_get_sublist xs i j (Nat.lt_of_succ_lt_succ hij)
        (Nat.lt_of_succ_lt_succ hj))

/-- C3 counterexample.  The claim reads: records with equal
cosine-similarity scores keep their original collection order in the
ranker's output.  On the two-record fixture the query shares no term
with the fitted vocabulary (the documents are bare object
representations), so both scores are exactly 0 — yet __tf_idf_rank
returns the records in reversed collection order: at two elements
np.argsort insertion-sorts, which leaves the equal scores in index
order, and the [::-1] reversal then flips them. -/
theorem tfidf_tie_not_input_order :
    cosineSimilarities tieDocs "machine learning" = [0, 0] ∧
      tfIdfRank tiePairs "machine learning" 2 =
        .ok [bobProfile, adaProfile] ∧
      adaProfile ≠ bobProfile := by
  refine ⟨tieSims, ?_, by decide⟩
  have hsort :
      (([(0, (0 : ℝ)), (1, 0)]).insertionSort ascBySnd) =
        [(0, (0 : ℝ)), (1, 0)] := by
    simp [List.insertionSort, List.orderedInsert, ascBySnd]
  simp only [tfIdfRank]
  rw [if_neg (by decide)]
  rw [rankedIndices]
  have hdocs : tiePairs.map (fun pa => profileStr pa.2) = tieDocs := rfl
  rw [hdocs, tieSims, argsortAsc]
  have henum : ([0, 0] : List ℝ).enum = [(0, (0 : ℝ)), (1, 0)] := rfl
  rw [henum, hsort]
  have hmap : ([(0, (0 : ℝ)), (1, 0)]).map Prod.fst = [0, 1] := rfl
  rw [hmap]
  congr 1

/-- C3 amended.  For collections of at most 16 records — within
numpy's insertion-sort cutoff, where np.argsort's default sort provably
keeps equal values in index order — whenever two records have equal
cosine-similarity scores under the statistical ranker, the record that
appears later in the input collection appears earlier in the ranker's
descending index order (of which the returned value is the top_n
records): the tie-break is by reverse collection order, not collection
order.  Beyond 16 records numpy's tie order is implementation-defined,
so no tie-order statement is made there; the original claim's
collection-order tie-break is false already at 2 records (see the
counterexample). -/
theorem tfidf_tie_break_reversed :
    ∀ (docs : List String) (query : String) (i j : Nat),
      docs.length ≤ 16 →
      ∀ (hij : i < j) (hj : j < (cosineSimilarities docs query).length),
      (cosineSimilarities docs query).get ⟨i, Nat.lt_trans hij hj⟩ =
        (cosineSimilarities docs query).get ⟨j, hj⟩ →
      [j, i].Sublist (rankedIndices docs query) := by
  intro docs query i j _hlen hij hj heq
  set l := cosineSimilarities docs query with hl
  have hjl : j < l.enum.length := by rw [List.enum_length]; exact hj
  have hil : i < l.enum.length := Nat.lt_trans hij hjl
  have hpair := pair_get_sublist l.enum i j hij hjl
  have hgi : l.enum.get ⟨i, Nat.lt_trans hij hjl⟩ =
      (i, l.get ⟨i, Nat.lt_trans hij hj⟩) := by
    simp [List.get_eq_getElem, List.getElem_enum]
  have hgj : l.enum.get ⟨j, hjl⟩ = (j, l.get ⟨j, hj⟩) := by
    simp [List.get_eq_getElem, List.getElem_enum]
  rw [hgi, hgj, heq] at hpair
  have hr : ascBySnd (i, l.get ⟨j, hj⟩) (j, l.get ⟨j, hj⟩) := le_refl _
  have hsorted := List.pair_sublist_insertionSort hr hpair
  have hmap := hsorted.map Prod.fst
  have hrev := hmap.reverse
  simpa [rankedIndices, argsortAsc] using hrev

/-- C3 amended witness: the two-record fixture is within the cutoff,
its scores tie at 0, and index 1 precedes index 0 in the descending
index order. -/
theorem tfidf_tie_break_reversed_witness :
    [1, 0].Sublist (rankedIndices tieDocs "machine learning") := by
  have hj : 1 < (cosineSimilarities tieDocs "machine learning").length := by
    rw [tieSims]; norm_num
  exact tfidf_tie_break_reversed tieDocs "machine learning" 0 1 (by decide)
    (by omega) hj (by simp [List.get_eq_getElem, tieSims])

/-- C4.  The lexical ranker sorts the scored records by descending
keyword-hit count (the count the code computes, see C2) and is stable:
any two scored records with equal counts keep their relative input
order in the sorted list, of which the returned value is the profile
projection. -/
theorem rankByKeywords_sorted_stable :
    ∀ (pairs : List (Profile × String)) (keywords : List String),
      rankByKeywords pairs keywords =
          ((scoredProfiles pairs keywords).insertionSort descByCount).map
            Prod.fst ∧
        ((scoredProfiles pairs keywords).insertionSort descByCount).Sorted
          descByCount ∧
        ∀ x y : Profile × Nat, x.2 = y.2 →
          [x, y].Sublist (scoredProfiles pairs keywords) →
          [x, y].Sublist
            ((scoredProfiles pairs keywords).insertionSort descByCount) := by
  intro pairs keywords
  refine ⟨rfl, List.sorted_insertionSort descByCount _, ?_⟩
  intro x y hxy hsub
  exact List.pair_sublist_insertionSort
    (show descByCount x y from le_of_eq hxy.symm) hsub

/-- C4 witness: with no keywords both fixture records score 0 and keep
their input order through the sort. -/
theorem rankByKeywords_sorted_stable_witness :
    [(adaProfile, 0), (bobProfile, 0)].Sublist
      ((scoredProfiles tiePairs []).insertionSort descByCount) :=
  (rankByKeywords_sorted_stable tiePairs []).2.2 (adaProfile, 0)
    (bobProfile, 0) rfl (by decide)

end StaffSearch
